import Mathlib

/-
Verification of the Credential & Access Control Subsystem of the csms
repository: encrypted department-code storage and verification, OAuth
credential-bundle lifecycle, folder lifecycle synchronisation with the
external storage provider, and the audit log.  JavaScript source files are
shallowly embedded as Lean definitions; persisted Mongo collections become
lists inside an explicit state record, and each Express handler becomes a
pure function from a state (plus the request data and the outcome of any
external provider call) to a result and a new state.
-/

namespace CSMS

/-! ## CredentialVault: the symmetric cipher and its wrappers -/

/-- Errors raised by the symmetric cipher. -/
inductive CryptoError where
  | badKey
  | wrongKey
deriving DecidableEq, Repr

/-- Modelled from the spec: ciphertext produced by the symmetric cipher
(CryptoJS.AES in models/User.js, an external library whose internals are not
under src/).  Per the CredentialVault contract, a ciphertext carries a
per-call random initialization vector (so ciphertext for the same secret
differs across calls), and decryption recovers the payload only under the
key it was produced with. -/
structure Ciphertext where
  iv : Nat
  keyTag : String
  payload : String
deriving DecidableEq, Repr

/-- Modelled from the spec: CredentialVault.encrypt.  Fails with CryptoError
if the key is absent (empty); otherwise produces a ciphertext bound to the
key, carrying the caller-supplied random iv. -/
def encrypt (secret key : String) (iv : Nat) : Except CryptoError Ciphertext :=
  if key = "" then .error .badKey else .ok ⟨iv, key, secret⟩

/-- Modelled from the spec: CredentialVault.decrypt.  Fails with CryptoError
on an absent key or a key different from the one the ciphertext was produced
under; never returns a wrong value silently. -/
def decrypt (c : Ciphertext) (key : String) : Except CryptoError String :=
  if key = "" then .error .badKey
  else if c.keyTag = key then .ok c.payload
  else .error .wrongKey

/-- True when a cipher call failed. -/
def isError : Except CryptoError String → Bool
  | .error _ => true
  | .ok _ => false

example : encrypt "CSE2024ABC" "key" 7 = .ok ⟨7, "key", "CSE2024ABC"⟩ := rfl
example : decrypt ⟨7, "key", "CSE2024ABC"⟩ "key" = .ok "CSE2024ABC" := rfl
example : decrypt ⟨7, "key", "CSE2024ABC"⟩ "kez" = .error .wrongKey := rfl

/-- Claim C2.  For every non-empty secret and non-empty key, decrypting the
ciphertext produced by encrypt under the same key returns exactly the
secret, and decrypting it under any different key fails with a CryptoError
rather than returning a value. -/
theorem credentialVault_roundtrip (secret key k2 : String) (iv : Nat) (c : Ciphertext)
    (hs : secret ≠ "") (hk : key ≠ "") (henc : encrypt secret key iv = .ok c)
    (hk2 : k2 ≠ key) :
    decrypt c key = .ok secret ∧ isError (decrypt c k2) = true := by
  have hc : c = ⟨iv, key, secret⟩ := by
    simp only [encrypt, if_neg hk] at henc
    exact (Except.ok.injEq _ _).mp henc.symm
  subst hc
  constructor
  · simp [decrypt, hk]
  · by_cases h2 : k2 = ""
    · simp [decrypt, h2, isError]
    · simp only [decrypt, if_neg h2]
      have : ¬ (key = k2) := fun h => hk2 h.symm
      simp [this, isError]

/-- Witness for C2 on the concrete scenario of the spec: the stored secret
"CSE2024ABC" round-trips under the right key and fails under another. -/
theorem credentialVault_roundtrip_witness :
    decrypt ⟨7, "key", "CSE2024ABC"⟩ "key" = .ok "CSE2024ABC" ∧
    isError (decrypt ⟨7, "key", "CSE2024ABC"⟩ "other") = true :=
  credentialVault_roundtrip "CSE2024ABC" "key" "other" 7 ⟨7, "key", "CSE2024ABC"⟩
    (by decide) (by decide) rfl (by decide)

/-! ## Principals (models/User.js) -/

/-- Roles of the userSchema role enum. -/
inductive Role where
  | student
  | faculty
  | admin
deriving DecidableEq, Repr

/-- The stored googleTokens subdocument of userSchema: every field is
optional in the schema. -/
structure GoogleTokens where
  accessToken : Option String
  refreshToken : Option String
  expiryDate : Option Int
deriving DecidableEq, Repr

/-- A principal, embedding the persisted fields of userSchema that the
subsystem reads.  The departmentCode field holds the encrypted secret (the
pre-save hook encrypts before persisting, so plaintext is never stored);
department is optional and may be the empty string. -/
structure User where
  id : Nat
  name : String
  email : String
  googleId : String
  role : Role
  department : Option String
  departmentCode : Option Ciphertext
  profilePicture : String
  googleTokens : Option GoogleTokens
  isActive : Bool
deriving DecidableEq, Repr

/-- userSchema pre-save hook on a modified plaintext departmentCode:
encrypts it under the configured key before it is persisted. -/
def setDepartmentCode (u : User) (plaintext key : String) (iv : Nat) :
    Except CryptoError User :=
  (encrypt plaintext key iv).map fun c => { u with departmentCode := some c }

/-- userSchema.methods.getDecryptedDepartmentCode: returns null when no code
is stored, otherwise decrypts the stored ciphertext under the configured
key (a decryption failure propagates as an exception). -/
def getDecryptedDepartmentCode (u : User) (key : String) :
    Except CryptoError (Option String) :=
  match u.departmentCode with
  | none => .ok none
  | some c => (decrypt c key).map some

/-- The body of the per-faculty loop of verifyDepartmentCode in the student
controller: decrypt the stored code and compare with strict equality; a
thrown decryption error is caught and counts as no match, and a null
decrypted code never equals the candidate string. -/
def codeMatches (key candidate : String) (u : User) : Bool :=
  match getDecryptedDepartmentCode u key with
  | .ok (some d) => d == candidate
  | .ok none => false
  | .error _ => false

/-- The Mongo query of verifyDepartmentCode: User.find with role faculty,
the given department, and isActive true. -/
def activeFacultyIn (users : List User) (dept : String) : List User :=
  users.filter fun u =>
    decide (u.role = Role.faculty) && decide (u.department = some dept) && u.isActive

/-- The three outcomes of the verify-code handler: 404 no faculty for the
department, 401 invalid department code, 200 verified. -/
inductive VerifyOutcome where
  | noFaculty
  | invalidCode
  | verified
deriving DecidableEq, Repr

/-- Result of the verify-code handler: the HTTP-level outcome and the
requesting student's (possibly updated) record. -/
structure VerifyResult where
  outcome : VerifyOutcome
  student : User
deriving DecidableEq, Repr

/-- verifyDepartmentCode from the student controller: list the active
faculty of the department (404 when there are none), scan them for one
whose stored secret decrypts to the candidate, and on success set the
student's department when it was unset or empty. -/
def verifyDepartmentCode (users : List User) (sysKey : String) (student : User)
    (candidate dept : String) : VerifyResult :=
  if activeFacultyIn users dept = [] then ⟨.noFaculty, student⟩
  else if (activeFacultyIn users dept).any (codeMatches sysKey candidate) then
    ⟨.verified,
      if student.department = none ∨ student.department = some "" then
        { student with department := some dept }
      else student⟩
  else ⟨.invalidCode, student⟩

theorem codeMatches_eq_true_iff (key candidate : String) (u : User) :
    codeMatches key candidate u = true ↔
      ∃ c, u.departmentCode = some c ∧ decrypt c key = .ok candidate := by
  unfold codeMatches getDecryptedDepartmentCode
  cases hdc : u.departmentCode with
  | none => simp
  | some c =>
    cases hd : decrypt c key with
    | ok d => simp [Except.map, hd]
    | error e => simp [Except.map, hd]

theorem any_codeMatches_iff (key candidate : String) (l : List User) :
    l.any (codeMatches key candidate) = true ↔
      ∃ u ∈ l, ∃ c, u.departmentCode = some c ∧ decrypt c key = .ok candidate := by
  rw [List.any_eq_true]
  constructor
  · rintro ⟨u, hu, hm⟩
    exact ⟨u, hu, (codeMatches_eq_true_iff _ _ _).mp hm⟩
  · rintro ⟨u, hu, hm⟩
    exact ⟨u, hu, (codeMatches_eq_true_iff _ _ _).mpr hm⟩

/-- Claim C1.  verifyDepartmentCode reports verified exactly when some
active faculty principal of the given department has a stored encrypted
secret decrypting to exactly the candidate code (string equality, hence
case-sensitive), and a department with zero active faculty yields the
distinct noFaculty outcome rather than the wrong-code outcome. -/
theorem verifyDepartmentCode_spec (users : List User) (sysKey : String) (student : User)
    (candidate dept : String) :
    ((verifyDepartmentCode users sysKey student candidate dept).outcome = .verified ↔
      ∃ u ∈ activeFacultyIn users dept, ∃ c, u.departmentCode = some c ∧
        decrypt c sysKey = .ok candidate) ∧
    (activeFacultyIn users dept = [] →
      (verifyDepartmentCode users sysKey student candidate dept).outcome = .noFaculty) ∧
    VerifyOutcome.noFaculty ≠ VerifyOutcome.invalidCode := by
  refine ⟨?_, ?_, by decide⟩
  · by_cases h : activeFacultyIn users dept = []
    · simp [verifyDepartmentCode, h]
    · by_cases hany : (activeFacultyIn users dept).any (codeMatches sysKey candidate) = true
      · simpa [verifyDepartmentCode, h, hany] using (any_codeMatches_iff _ _ _).mp hany
      · have h2 : ¬ ∃ u ∈ activeFacultyIn users dept, ∃ c, u.departmentCode = some c ∧
            decrypt c sysKey = .ok candidate :=
          fun hx => hany ((any_codeMatches_iff _ _ _).mpr hx)
        simp [verifyDepartmentCode, h, hany, h2]
  · intro h
    simp [verifyDepartmentCode, h]

/-- A sample student principal with no department set, used to instantiate
theorems at concrete inputs. -/
def sampleStudent : User :=
  { id := 2, name := "S", email := "s@example.com", googleId := "gs",
    role := .student, department := none, departmentCode := none,
    profilePicture := "", googleTokens := none, isActive := true }

/-- Witness for C1: with no principals at all, the department has zero
active faculty and verification reports the distinct noFaculty outcome. -/
theorem verifyDepartmentCode_spec_witness :
    (verifyDepartmentCode [] "key" sampleStudent "CSE2024ABC" "CSE").outcome = .noFaculty :=
  (verifyDepartmentCode_spec [] "key" sampleStudent "CSE2024ABC" "CSE").2.1 rfl

/-- Claim C9.  The successful verify-code path has a side effect on the
requesting student's record: the department is set to the verified one
exactly when verification succeeded and the student's department was unset
or empty; in every other case the student record is returned unchanged. -/
theorem verify_sets_student_department (users : List User) (sysKey : String) (student : User)
    (candidate dept : String) :
    (verifyDepartmentCode users sysKey student candidate dept).student =
      if (verifyDepartmentCode users sysKey student candidate dept).outcome = .verified ∧
         (student.department = none ∨ student.department = some "") then
        { student with department := some dept }
      else student := by
  by_cases h : activeFacultyIn users dept = []
  · simp [verifyDepartmentCode, h]
  · by_cases hany : (activeFacultyIn users dept).any (codeMatches sysKey candidate) = true
    · by_cases hdep : student.department = none ∨ student.department = some ""
      · simp [verifyDepartmentCode, h, hany, hdep]
      · simp [verifyDepartmentCode, h, hany, hdep]
    · simp [verifyDepartmentCode, h, hany]

/-! ## OAuth credential-bundle lifecycle (authController.js) -/

/-- A token response from the issuer (Google): getTokens and
refreshAccessToken both produce an access token and expiry, and may or may
not include a refresh token. -/
structure IssuerTokens where
  access_token : String
  refresh_token : Option String
  expiry_date : Int
deriving DecidableEq, Repr

/-- JavaScript truthiness-based choice on strings: x or-else y, where an
absent or empty string counts as falsy. -/
def jsOrStr (x y : Option String) : Option String :=
  match x with
  | some s => if s = "" then y else some s
  | none => y

/-- The googleTokens assignment in the existing-user branch of
googleCallback: access token and expiry always come from the issuer
response, the refresh token is the issuer's when present (truthy) and
otherwise the previously stored one. -/
def callbackUpdatedTokens (old : GoogleTokens) (t : IssuerTokens) : GoogleTokens :=
  { accessToken := some t.access_token,
    refreshToken := jsOrStr t.refresh_token old.refreshToken,
    expiryDate := some t.expiry_date }

/-- The googleTokens assignment in the new-user branch of googleCallback:
the freshly created bundle holds exactly the issuer's values. -/
def callbackNewUserTokens (t : IssuerTokens) : GoogleTokens :=
  { accessToken := some t.access_token,
    refreshToken := t.refresh_token,
    expiryDate := some t.expiry_date }

/-- Outcomes of the refresh-token handler: 400 when no refresh token is
stored, otherwise the updated bundle. -/
inductive RefreshOutcome where
  | noRefresh
  | refreshed (tokens : GoogleTokens)
deriving DecidableEq, Repr

/-- refreshGoogleToken from authController.js: requires a stored (truthy)
refresh token, then overwrites only the access token and expiry with the
issuer's fresh values, leaving the stored refresh token field untouched. -/
def refreshGoogleToken (old : GoogleTokens) (issuer : IssuerTokens) : RefreshOutcome :=
  match old.refreshToken with
  | none => .noRefresh
  | some r =>
    if r = "" then .noRefresh
    else .refreshed { accessToken := some issuer.access_token,
                      refreshToken := old.refreshToken,
                      expiryDate := some issuer.expiry_date }

/-- Claim C8.  In each operation that stores or refreshes a credential
bundle (callback update of an existing user, the refresh endpoint, and
first-authentication creation), the access token and expiry instant are
replaced together with the issuer's values, and the stored refresh token is
replaced only when the issuer supplies a (truthy) new one, being retained
otherwise. -/
theorem credential_bundle_lifecycle (old : GoogleTokens) (t : IssuerTokens) :
    ((callbackUpdatedTokens old t).accessToken = some t.access_token ∧
     (callbackUpdatedTokens old t).expiryDate = some t.expiry_date ∧
     (∀ s, t.refresh_token = some s → s ≠ "" →
        (callbackUpdatedTokens old t).refreshToken = some s) ∧
     ((t.refresh_token = none ∨ t.refresh_token = some "") →
        (callbackUpdatedTokens old t).refreshToken = old.refreshToken)) ∧
    (∀ r, old.refreshToken = some r → r ≠ "" →
       refreshGoogleToken old t = .refreshed
         { accessToken := some t.access_token,
           refreshToken := old.refreshToken,
           expiryDate := some t.expiry_date }) ∧
    ((callbackNewUserTokens t).accessToken = some t.access_token ∧
     (callbackNewUserTokens t).expiryDate = some t.expiry_date ∧
     (callbackNewUserTokens t).refreshToken = t.refresh_token) := by
  refine ⟨⟨rfl, rfl, ?_, ?_⟩, ?_, rfl, rfl, rfl⟩
  · intro s hs hne
    simp [callbackUpdatedTokens, jsOrStr, hs, hne]
  · rintro (h | h) <;> simp [callbackUpdatedTokens, jsOrStr, h]
  · intro r hr hne
    simp [refreshGoogleToken, hr, hne]

/-- A sample stored credential bundle. -/
def sampleOldTokens : GoogleTokens :=
  { accessToken := some "oldA", refreshToken := some "oldR", expiryDate := some 100 }

/-- A sample issuer response that supplies no new refresh token. -/
def sampleIssuer : IssuerTokens :=
  { access_token := "newA", refresh_token := none, expiry_date := 200 }

/-- Witness for C8: when the issuer supplies no refresh token, both the
callback update and the refresh endpoint retain the stored one while
replacing access token and expiry. -/
theorem credential_bundle_lifecycle_witness :
    (callbackUpdatedTokens sampleOldTokens sampleIssuer).refreshToken = some "oldR" ∧
    refreshGoogleToken sampleOldTokens sampleIssuer = .refreshed
      { accessToken := some "newA", refreshToken := some "oldR", expiryDate := some 200 } := by
  have h := credential_bundle_lifecycle sampleOldTokens sampleIssuer
  exact ⟨h.1.2.2.2 (Or.inl rfl), h.2.1 "oldR" rfl (by decide)⟩

/-- Identity data returned by the issuer's fetchIdentity call
(getUserInfo). -/
structure GoogleUserInfo where
  id : String
  name : String
  email : String
  picture : Option String
deriving DecidableEq, Repr

/-- The new-user branch of googleCallback: the created principal's role is
admin when the identity's email strictly equals the configured
bootstrap-admin identity, student otherwise; department and department code
start unset and the account is active. -/
def newUserFromGoogle (info : GoogleUserInfo) (adminEmail : Option String)
    (t : IssuerTokens) (newId : Nat) : User :=
  { id := newId, name := info.name, email := info.email, googleId := info.id,
    role := if adminEmail = some info.email then .admin else .student,
    department := none, departmentCode := none,
    profilePicture := info.picture.getD "",
    googleTokens := some (callbackNewUserTokens t),
    isActive := true }

/-- Claim C10.  On first successful external authentication the created
principal's role is admin exactly when the identity's email equals the
configured bootstrap-admin identity, student otherwise; the faculty role is
never assigned at account creation. -/
theorem newUser_role_assignment (info : GoogleUserInfo) (adminEmail : Option String)
    (t : IssuerTokens) (newId : Nat) :
    ((newUserFromGoogle info adminEmail t newId).role = .admin ↔
      adminEmail = some info.email) ∧
    (newUserFromGoogle info adminEmail t newId).role ≠ .faculty := by
  unfold newUserFromGoogle
  by_cases h : adminEmail = some info.email
  · simp [h]
  · simp [h]

/-- A sample issuer identity. -/
def sampleInfo : GoogleUserInfo :=
  { id := "g7", name := "A", email := "a@example.com", picture := none }

/-- Witness for C10: with the bootstrap-admin identity configured to the
authenticated email, the created principal is an admin. -/
theorem newUser_role_assignment_witness :
    (newUserFromGoogle sampleInfo (some "a@example.com") sampleIssuer 7).role = .admin :=
  (newUser_role_assignment sampleInfo (some "a@example.com") sampleIssuer 7).1.mpr rfl

/-! ## Folders (models/Folder.js), the audit log (models/Log.js), and the
shared persisted state -/

/-- A material folder, embedding the persisted fields of folderSchema. -/
structure Folder where
  id : Nat
  facultyId : Nat
  facultyName : String
  facultyEmail : String
  department : String
  semester : Nat
  subject : String
  driveFolderId : String
  driveFolderLink : String
  permissions : String
  description : String
  isActive : Bool
  viewCount : Nat
  lastAccessed : Option Nat
deriving DecidableEq, Repr

/-- The closed action enum of logSchema. -/
inductive LogAction where
  | login
  | logout
  | create_folder
  | delete_folder
  | view_folder
  | update_profile
  | change_role
  | deactivate_user
  | activate_user
  | update_department_code
deriving DecidableEq, Repr

/-- An audit event of logSchema: actor snapshot, action, and the detail
fields the folder handlers record. -/
structure LogEntry where
  userId : Nat
  userName : String
  userEmail : String
  action : LogAction
  folderId : Option Nat
  subject : Option String
  department : Option String
  semester : Option Nat
deriving DecidableEq, Repr

/-- The persisted state the folder handlers share: the Folder collection
and the append-only Log collection. -/
structure SState where
  folders : List Folder
  logs : List LogEntry
deriving DecidableEq, Repr

/-- Folder.findById over the collection. -/
def findFolder : List Folder → Nat → Option Folder
  | [], _ => none
  | f :: rest, fid => if f.id = fid then some f else findFolder rest fid

/-- Persisting a loaded document with save: the stored record with the
given identifier is replaced wholesale by the written document. -/
def setFolder : List Folder → Nat → Folder → List Folder
  | [], _, _ => []
  | f :: rest, fid, g => if f.id = fid then g :: rest else f :: setFolder rest fid g

theorem findFolder_id (l : List Folder) (fid : Nat) (f : Folder)
    (h : findFolder l fid = some f) : f.id = fid := by
  induction l with
  | nil => simp [findFolder] at h
  | cons a rest ih =>
    by_cases ha : a.id = fid
    · simp only [findFolder, if_pos ha, Option.some.injEq] at h
      exact h ▸ ha
    · simp only [findFolder, if_neg ha] at h
      exact ih h

theorem findFolder_setFolder (l : List Folder) (fid : Nat) (f g : Folder)
    (hf : findFolder l fid = some f) (hg : g.id = fid) :
    findFolder (setFolder l fid g) fid = some g := by
  induction l with
  | nil => simp [findFolder] at hf
  | cons a rest ih =>
    by_cases h : a.id = fid
    · simp [setFolder, h, findFolder, hg]
    · simp only [setFolder, if_neg h, findFolder]
      simp only [findFolder, if_neg h] at hf
      simp [h, ih hf]

theorem mem_setFolder (l : List Folder) (fid : Nat) (g x : Folder)
    (hg : g.id = fid) (hx : x.id ≠ fid) : x ∈ setFolder l fid g ↔ x ∈ l := by
  induction l with
  | nil => simp [setFolder]
  | cons a rest ih =>
    by_cases h : a.id = fid
    · have hxg : x ≠ g := fun he => hx (he ▸ hg)
      have hxa : x ≠ a := fun he => hx (he ▸ h)
      simp [setFolder, h, List.mem_cons, hxg, hxa]
    · simp [setFolder, h, List.mem_cons, ih]

/-- folderSchema.methods.incrementViewCount, the in-memory document
mutation performed before save: bump the loaded view count by one and stamp
lastAccessed with the current instant. -/
def incrementViewCount (doc : Folder) (now : Nat) : Folder :=
  { doc with viewCount := doc.viewCount + 1, lastAccessed := some now }

/-- The view_folder audit event appended by the access handler. -/
def viewFolderLog (requester : User) (f : Folder) : LogEntry :=
  { userId := requester.id, userName := requester.name, userEmail := requester.email,
    action := .view_folder, folderId := some f.id, subject := some f.subject,
    department := some f.department, semester := some f.semester }

/-- Outcomes of the access handler: 404 unknown folder, 400 soft-deleted
folder, or the returned link, subject, and owner name. -/
inductive AccessResult where
  | notFound
  | inactive
  | granted (link subject facultyName : String)
deriving DecidableEq, Repr

/-- accessFolder from the student controller: look up the folder (404 when
absent, 400 when soft-deleted), increment the view counter and stamp
lastAccessed via incrementViewCount plus save, append a view_folder audit
event, and return the folder's link, subject, and owner name. -/
def accessFolder (st : SState) (fid : Nat) (requester : User) (now : Nat) :
    AccessResult × SState :=
  match findFolder st.folders fid with
  | none => (.notFound, st)
  | some f =>
    if f.isActive then
      (.granted f.driveFolderLink f.subject f.facultyName,
       { folders := setFolder st.folders fid (incrementViewCount f now),
         logs := st.logs ++ [viewFolderLog requester f] })
    else (.inactive, st)

/-- Claim C3.  access fails with the not-found outcome when no folder has
the identifier and with the inactive outcome when the folder is
soft-deleted, leaving the state unchanged in both cases; on success it
returns the folder's link, subject, and owner name, increments exactly that
folder's view counter by one, stamps its lastAccessed with now, appends a
view_folder audit event, and touches no other folder. -/
theorem accessFolder_spec (st : SState) (fid : Nat) (requester : User) (now : Nat) :
    (findFolder st.folders fid = none →
      accessFolder st fid requester now = (.notFound, st)) ∧
    (∀ f, findFolder st.folders fid = some f → f.isActive = false →
      accessFolder st fid requester now = (.inactive, st)) ∧
    (∀ f, findFolder st.folders fid = some f → f.isActive = true →
      (accessFolder st fid requester now).1 =
        .granted f.driveFolderLink f.subject f.facultyName ∧
      findFolder (accessFolder st fid requester now).2.folders fid =
        some { f with viewCount := f.viewCount + 1, lastAccessed := some now } ∧
      (accessFolder st fid requester now).2.logs = st.logs ++ [viewFolderLog requester f] ∧
      ∀ g : Folder, g.id ≠ fid →
        (g ∈ (accessFolder st fid requester now).2.folders ↔ g ∈ st.folders)) := by
  refine ⟨?_, ?_, ?_⟩
  · intro h
    simp [accessFolder, h]
  · intro f hf hi
    simp [accessFolder, hf, hi]
  · intro f hf ha
    have hid : f.id = fid := findFolder_id _ _ _ hf
    refine ⟨?_, ?_, ?_, ?_⟩
    · simp [accessFolder, hf, ha]
    · have h2 := findFolder_setFolder st.folders fid f (incrementViewCount f now) hf hid
      simpa [accessFolder, hf, ha, incrementViewCount] using h2
    · simp [accessFolder, hf, ha]
    · intro g hg
      have h2 := mem_setFolder st.folders fid (incrementViewCount f now) g hid hg
      simpa [accessFolder, hf, ha] using h2

/-- A sample active folder owned by the principal with identifier 1. -/
def sampleFolder : Folder :=
  { id := 10, facultyId := 1, facultyName := "F", facultyEmail := "f@example.com",
    department := "CSE", semester := 3, subject := "OS",
    driveFolderId := "d1", driveFolderLink := "L1", permissions := "view",
    description := "", isActive := true, viewCount := 0, lastAccessed := none }

/-- A sample persisted state holding only that folder and no audit
events. -/
def sampleState : SState := { folders := [sampleFolder], logs := [] }

/-- Witness for C3: accessing the sample folder returns its link, subject,
and owner name and leaves its counter at one with lastAccessed stamped. -/
theorem accessFolder_spec_witness :
    (accessFolder sampleState 10 sampleStudent 5).1 = .granted "L1" "OS" "F" ∧
    findFolder (accessFolder sampleState 10 sampleStudent 5).2.folders 10 =
      some { sampleFolder with viewCount := 1, lastAccessed := some 5 } := by
  have h := (accessFolder_spec sampleState 10 sampleStudent 5).2.2 sampleFolder rfl rfl
  exact ⟨h.1, h.2.1⟩

/-- Two concurrent access calls on the same stored folder, modelled as an
interleaving of their primitive store operations.  Each call first reads
the stored document (findById) and later writes back the whole mutated
document (incrementViewCount followed by save).  A scheduling entry true
steps the first call and false the second; a call's first step copies the
store into its local document, and its next step overwrites the store with
incrementViewCount of that local copy. -/
def runTwoAccesses (store : Folder) (d1 d2 : Option Folder) (t1 t2 : Nat) :
    List Bool → Folder
  | [] => store
  | true :: rest =>
    match d1 with
    | none => runTwoAccesses store (some store) d2 t1 t2 rest
    | some doc => runTwoAccesses (incrementViewCount doc t1) d1 d2 t1 t2 rest
  | false :: rest =>
    match d2 with
    | none => runTwoAccesses store d1 (some store) t1 t2 rest
    | some doc => runTwoAccesses (incrementViewCount doc t2) d1 d2 t1 t2 rest

/-- Claim C4, refuted on the code.  The increment behind access is the
plain read-then-save round trip of folderSchema.methods.incrementViewCount,
not an atomic store-side update: interleaving two concurrent access calls
as read, read, write, write advances the stored view counter by exactly
one, while running the same two calls back to back advances it by two — so
two concurrent calls do not always advance the counter by exactly two as
the claim requires. -/
theorem viewCount_race_code_bug :
    (runTwoAccesses sampleFolder none none 5 6 [true, false, true, false]).viewCount = 1 ∧
    (runTwoAccesses sampleFolder none none 5 6 [true, true, false, false]).viewCount = 2 ∧
    (1 : Nat) ≠ 2 :=
  ⟨rfl, rfl, by decide⟩

/-! ## Folder lifecycle handlers (folderController.js) -/

/-- The subject edit of updateFolder: applied only when the request carries
a truthy subject string. -/
def applySubjectEdit (f : Folder) (subject : Option String) : Folder :=
  match subject with
  | some s => if s = "" then f else { f with subject := s }
  | none => f

/-- The description edit of updateFolder: applied whenever the request
defines a description, including the empty string. -/
def applyDescriptionEdit (f : Folder) (description : Option String) : Folder :=
  match description with
  | some d => { f with description := d }
  | none => f

theorem applySubjectEdit_id (f : Folder) (s : Option String) :
    (applySubjectEdit f s).id = f.id := by
  cases s with
  | none => rfl
  | some v =>
    by_cases hv : v = "" <;> simp [applySubjectEdit, hv]

theorem applyDescriptionEdit_id (f : Folder) (d : Option String) :
    (applyDescriptionEdit f d).id = f.id := by
  cases d with
  | none => rfl
  | some v => rfl

/-- Outcomes of updateFolder: 404, 403, a propagated provider failure
(500), or the updated folder returned with 200. -/
inductive UpdateResult where
  | notFound
  | notAuthorized
  | providerError
  | updated (f : Folder)
deriving DecidableEq, Repr

/-- updateFolder from folderController.js: ownership-checked; subject and
description are edited on the loaded document; a requested permission
change (truthy and different from the stored value) first performs the
provider setPermission call — its failure aborts the handler before save,
so nothing is persisted — and only on provider success is the new
permission stored; finally the document is saved. -/
def updateFolderOp (st : SState) (fid : Nat) (requester : User)
    (subject permissions description : Option String) (providerOk : Bool) :
    UpdateResult × SState :=
  match findFolder st.folders fid with
  | none => (.notFound, st)
  | some f =>
    if f.facultyId ≠ requester.id then (.notAuthorized, st)
    else
      let f2 := applyDescriptionEdit (applySubjectEdit f subject) description
      match permissions with
      | some p =>
        if p ≠ "" ∧ p ≠ f.permissions then
          if providerOk then
            (.updated { f2 with permissions := p },
             { st with folders := setFolder st.folders fid { f2 with permissions := p } })
          else (.providerError, st)
        else (.updated f2, { st with folders := setFolder st.folders fid f2 })
      | none => (.updated f2, { st with folders := setFolder st.folders fid f2 })

theorem updateFolderOp_providerFail (st : SState) (fid : Nat) (requester : User)
    (subject description : Option String) (p : String) (f : Folder)
    (hf : findFolder st.folders fid = some f) (hown : f.facultyId = requester.id)
    (hp : p ≠ "") (hchanged : p ≠ f.permissions) :
    updateFolderOp st fid requester subject (some p) description false =
      (.providerError, st) := by
  simp [updateFolderOp, hf, hown, hp, hchanged]

/-- Claim C5.  When a permission change is requested in updateFolder, the
provider call gates persistence: a failed setPermission leaves the entire
persisted state — in particular the folder's local permission — unchanged,
while after provider success the handler reports the updated folder, whose
persisted permission is exactly the value that was sent to the provider. -/
theorem updateFolder_permission_sync (st : SState) (fid : Nat) (requester : User)
    (subject description : Option String) (p : String) (f : Folder)
    (hf : findFolder st.folders fid = some f) (hown : f.facultyId = requester.id)
    (hp : p ≠ "") (hchanged : p ≠ f.permissions) :
    updateFolderOp st fid requester subject (some p) description false =
      (.providerError, st) ∧
    (updateFolderOp st fid requester subject (some p) description true).1 =
      .updated { applyDescriptionEdit (applySubjectEdit f subject) description with
                 permissions := p } ∧
    findFolder
        (updateFolderOp st fid requester subject (some p) description true).2.folders fid =
      some { applyDescriptionEdit (applySubjectEdit f subject) description with
             permissions := p } := by
  have hid : f.id = fid := findFolder_id _ _ _ hf
  have hgid : ({ applyDescriptionEdit (applySubjectEdit f subject) description with
      permissions := p } : Folder).id = fid := by
    simpa [applyDescriptionEdit_id, applySubjectEdit_id] using hid
  refine ⟨updateFolderOp_providerFail st fid requester subject description p f hf hown
    hp hchanged, ?_, ?_⟩
  · simp [updateFolderOp, hf, hown, hp, hchanged]
  · have h2 := findFolder_setFolder st.folders fid f
      { applyDescriptionEdit (applySubjectEdit f subject) description with
        permissions := p } hf hgid
    simpa [updateFolderOp, hf, hown, hp, hchanged] using h2

/-- A sample faculty principal, owner of the sample folder, holding an
encrypted department code and a connected credential bundle. -/
def sampleFaculty : User :=
  { id := 1, name := "F", email := "f@example.com", googleId := "gf",
    role := .faculty, department := some "CSE",
    departmentCode := some ⟨0, "key", "CSE2024ABC"⟩,
    profilePicture := "", googleTokens := some sampleOldTokens, isActive := true }

/-- Witness for C5: changing the sample folder's permission from view to
edit fails without persisting anything when the provider call fails, and
persists exactly edit when it succeeds. -/
theorem updateFolder_permission_sync_witness :
    updateFolderOp sampleState 10 sampleFaculty none (some "edit") none false =
      (.providerError, sampleState) ∧
    (updateFolderOp sampleState 10 sampleFaculty none (some "edit") none true).1 =
      .updated { sampleFolder with permissions := "edit" } := by
  have h := updateFolder_permission_sync sampleState 10 sampleFaculty none none "edit"
    sampleFolder rfl rfl (by decide) (by decide)
  exact ⟨h.1, h.2.1⟩

/-- Outcomes of deleteFolderById: 404, 403, or 200 success. -/
inductive DeleteResult where
  | notFound
  | notAuthorized
  | deleted
deriving DecidableEq, Repr

/-- Full outcome of deleteFolderById: the reported result, the persisted
state after the call, and whether the provider deleteFolder call was
attempted at all. -/
structure DeleteOutcome where
  result : DeleteResult
  state : SState
  providerAttempted : Bool
deriving DecidableEq, Repr

/-- The delete_folder audit event appended by deleteFolderById; its detail
payload holds only the folder identifier and subject. -/
def deleteFolderLog (requester : User) (f : Folder) : LogEntry :=
  { userId := requester.id, userName := requester.name, userEmail := requester.email,
    action := .delete_folder, folderId := some f.id, subject := some f.subject,
    department := none, semester := none }

/-- deleteFolderById from folderController.js: 404 when the folder does not
exist; 403 before anything else when the requester is not the owner; for
the owner, the provider deleteFolder call is attempted inside a try block
whose failure is only logged, after which the folder is marked inactive
(soft delete), a delete_folder audit event is appended, and success is
returned regardless of the provider outcome. -/
def deleteFolderById (st : SState) (fid : Nat) (requester : User)
    ( _providerOk : Bool) : DeleteOutcome :=
  match findFolder st.folders fid with
  | none => ⟨.notFound, st, false⟩
  | some f =>
    if f.facultyId ≠ requester.id then ⟨.notAuthorized, st, false⟩
    else
      ⟨.deleted,
       { folders := setFolder st.folders fid { f with isActive := false },
         logs := st.logs ++ [deleteFolderLog requester f] },
       true⟩

/-- Claim C6.  A requester who is not the folder's owner gets the
not-authorized outcome from softDelete, and in that case nothing changes:
the state is returned as it was, and the provider deletion is never
attempted (hence no audit event is appended either). -/
theorem softDelete_nonowner_noop (st : SState) (fid : Nat) (requester : User)
    (providerOk : Bool) (f : Folder) (hf : findFolder st.folders fid = some f)
    (hown : f.facultyId ≠ requester.id) :
    deleteFolderById st fid requester providerOk = ⟨.notAuthorized, st, false⟩ := by
  simp [deleteFolderById, hf, hown]

/-- Witness for C6: the sample student is not the owner of the sample
folder, so deletion is refused and the state is untouched. -/
theorem softDelete_nonowner_noop_witness :
    deleteFolderById sampleState 10 sampleStudent true =
      ⟨.notAuthorized, sampleState, false⟩ :=
  softDelete_nonowner_noop sampleState 10 sampleStudent true sampleFolder rfl (by decide)

/-- Outcomes of createNewFolder: 400 when no Drive access token is stored,
a propagated provider failure (500), or the created record with 201. -/
inductive CreateResult where
  | notConnected
  | providerError
  | created (f : Folder)
deriving DecidableEq, Repr

/-- The provider's answer to a successful createFolder call. -/
structure DriveFolder where
  id : String
  name : String
  link : String
deriving DecidableEq, Repr

/-- The create_folder audit event appended by createNewFolder. -/
def createFolderLog (faculty : User) (f : Folder) : LogEntry :=
  { userId := faculty.id, userName := faculty.name, userEmail := faculty.email,
    action := .create_folder, folderId := some f.id, subject := some f.subject,
    department := some f.department, semester := some f.semester }

/-- createNewFolder from folderController.js: requires a stored (truthy)
Drive access token, then creates the provider folder and sets its
permission — a failure of either provider call propagates to the caller
with nothing persisted — and only then saves the local record (permission
defaulting to view on a falsy request value) and appends the create_folder
audit event. -/
def createNewFolder (st : SState) (faculty : User) (dept : String) (sem : Nat)
    (subj : String) (perm desc : Option String)
    (providerCreated : Option DriveFolder) (providerPermOk : Bool) (newId : Nat) :
    CreateResult × SState :=
  match faculty.googleTokens with
  | none => (.notConnected, st)
  | some tb =>
    match tb.accessToken with
    | none => (.notConnected, st)
    | some a =>
      if a = "" then (.notConnected, st)
      else
        match providerCreated with
        | none => (.providerError, st)
        | some df =>
          if providerPermOk then
            let folder : Folder :=
              { id := newId, facultyId := faculty.id, facultyName := faculty.name,
                facultyEmail := faculty.email, department := dept, semester := sem,
                subject := subj, driveFolderId := df.id, driveFolderLink := df.link,
                permissions :=
                  match perm with
                  | some p => if p = "" then "view" else p
                  | none => "view",
                description := desc.getD "", isActive := true, viewCount := 0,
                lastAccessed := none }
            (.created folder,
             { folders := st.folders ++ [folder],
               logs := st.logs ++ [createFolderLog faculty folder] })
          else (.providerError, st)

/-- Claim C7.  For the owner's softDelete a provider deleteFolder failure
is swallowed: the outcome is bitwise identical to the provider-success
outcome — success is reported, the folder is marked inactive, a
delete_folder audit event is appended, and the provider call was attempted
— whereas a provider failure in each other provider-calling operation
(folder creation at either provider step, and a requested permission
update) propagates to the caller as an error with the state unchanged. -/
theorem delete_provider_failure_swallowed (st : SState) (fid : Nat) (requester : User)
    (f : Folder) (hf : findFolder st.folders fid = some f)
    (hown : f.facultyId = requester.id)
    (subject description : Option String) (p : String) (hp : p ≠ "")
    (hchanged : p ≠ f.permissions)
    (dept : String) (sem : Nat) (subj : String) (perm desc : Option String)
    (newId : Nat) (providerPermOk : Bool)
    (tb : GoogleTokens) (htb : requester.googleTokens = some tb)
    (a : String) (ha : tb.accessToken = some a) (hane : a ≠ "") :
    (deleteFolderById st fid requester false = deleteFolderById st fid requester true ∧
     (deleteFolderById st fid requester false).result = .deleted ∧
     findFolder (deleteFolderById st fid requester false).state.folders fid =
       some { f with isActive := false } ∧
     (deleteFolderById st fid requester false).state.logs =
       st.logs ++ [deleteFolderLog requester f] ∧
     (deleteFolderById st fid requester false).providerAttempted = true) ∧
    (updateFolderOp st fid requester subject (some p) description false =
      (.providerError, st)) ∧
    (createNewFolder st requester dept sem subj perm desc none providerPermOk newId =
      (.providerError, st)) ∧
    (∀ df : DriveFolder,
      createNewFolder st requester dept sem subj perm desc (some df) false newId =
        (.providerError, st)) := by
  have hid : f.id = fid := findFolder_id _ _ _ hf
  refine ⟨⟨rfl, ?_, ?_, ?_, ?_⟩, ?_, ?_, ?_⟩
  · simp [deleteFolderById, hf, hown]
  · have h2 := findFolder_setFolder st.folders fid f { f with isActive := false } hf hid
    simpa [deleteFolderById, hf, hown] using h2
  · simp [deleteFolderById, hf, hown]
  · simp [deleteFolderById, hf, hown]
  · exact updateFolderOp_providerFail st fid requester subject description p f hf hown
      hp hchanged
  · simp [createNewFolder, htb, ha, hane]
  · intro df
    simp [createNewFolder, htb, ha, hane]

/-- Witness for C7: the owner's delete of the sample folder has the same
outcome for a failed and a successful provider call, reporting success. -/
theorem delete_provider_failure_swallowed_witness :
    deleteFolderById sampleState 10 sampleFaculty false =
      deleteFolderById sampleState 10 sampleFaculty true ∧
    (deleteFolderById sampleState 10 sampleFaculty false).result = .deleted ∧
    createNewFolder sampleState sampleFaculty "CSE" 3 "OS" none none none true 11 =
      (.providerError, sampleState) := by
  have h := delete_provider_failure_swallowed sampleState 10 sampleFaculty sampleFolder
    rfl rfl none none "edit" (by decide) (by decide) "CSE" 3 "OS" none none 11 true
    sampleOldTokens rfl "oldA" rfl (by decide)
  exact ⟨h.1.1, h.1.2.1, h.2.2.1⟩

end CSMS
